import Mathlib

/-!
Verification of the baseline predictors in `src/py_lib/baselines.py`.

The module defines an abstract class `DumbPredictor` holding the training
targets, whose `predict` method reads only `features.shape[0]` and broadcasts
the value of the variant-specific `_single_predict` method, and three concrete
variants: `DumbRegressor` (mean), `DumbOrdinalClassifier` (median) and
`DumbNominalClassifier` (mode via `scipy.stats.mode`).

Rational numbers stand in for Python floats, so every statistic is exact.
A Python method call that can raise is modelled as an `Except PyError`
result.  The numpy behaviours relevant here: `features.shape[0]` raises
`IndexError` when the shape tuple is empty (a 0-d array); `np.full((n,), v)`
yields `n` copies of `v`, also for `n = 0`; `scipy.stats.mode` returns the
smallest among the values of maximal frequency, and indexing its result with
`[0]` raises `IndexError` when the input is empty.  `np.mean` and `np.median`
of an empty sequence yield NaN, which has no rational counterpart; the
definitions below return `0` there, and every theorem that speaks about those
two statistics assumes a non-empty target sequence, so the deviation is never
exercised.
-/

namespace Baselines

/-- Python exceptions that the embedded code can raise. -/
inductive PyError where
  | indexError : PyError
deriving DecidableEq

/-- A numpy array handed to `predict` (line 31): the code consumes only
`features.shape[0]`, so the embedding records the shape tuple next to the
element values, which `predict` never reads. -/
structure FeatureBatch where
  shape : List Nat
  data : List (List ℚ)
deriving DecidableEq

/-- `np.mean(a)` on a rational sequence: the sum of the entries divided by
their number (line 51).  On the empty sequence numpy yields NaN; here the
rational division yields `0`, and no theorem uses the mean of an empty
sequence. -/
def npMean (a : List ℚ) : ℚ := a.sum / (a.length : ℚ)

/-- `np.median(a)` (line 63): sort ascending; for odd length the middle
element, for even length the average of the two middle elements.  On the
empty sequence numpy yields NaN; here the out-of-range `getD` yields `0`,
and no theorem uses the median of an empty sequence. -/
def npMedian (a : List ℚ) : ℚ :=
  if a.length % 2 = 1 then (List.insertionSort (· ≤ ·) a).getD (a.length / 2) 0
  else ((List.insertionSort (· ≤ ·) a).getD (a.length / 2 - 1) 0
        + (List.insertionSort (· ≤ ·) a).getD (a.length / 2) 0) / 2

/-- Whether `x` occurs in `a` at least as often as every entry of `a`,
i.e. whether `x` has maximal frequency. -/
def isModeB (a : List ℚ) (x : ℚ) : Bool :=
  a.all fun y => a.count y ≤ a.count x

/-- The distinct values of maximal frequency in `a`, in ascending order:
the modes that line 76 speaks about.  `scipy.stats.mode` keeps the smallest
of them, which is exactly the head of this list. -/
def scipyModes (a : List ℚ) : List ℚ :=
  ((List.insertionSort (· ≤ ·) a).dedup).filter (isModeB a)

/-- `stats.mode(self.targets)` followed by `modes[0]` (lines 76 and 77): the
smallest value of maximal frequency; on an empty input the indexing raises
`IndexError`. -/
def modesAtZero (a : List ℚ) : Except PyError ℚ :=
  match scipyModes a with
  | [] => .error .indexError
  | m :: _ => .ok m

/-- Modelled from the spec: the sentence "mode (first in case of ties)" read
as the first value, in the order the targets were given, whose frequency is
maximal.  Used only to compare the spec wording with the code. -/
def firstTiedMode (a : List ℚ) : Option ℚ :=
  a.find? (isModeB a)

/-- `DumbPredictor.predict` (lines 31 to 38), shared by the three variants:
`n_features = features.shape[0]` raises `IndexError` on an empty shape tuple;
otherwise the result is `np.full((n_features,), self._single_predict())`,
propagating whatever the variant-specific single prediction raises. -/
def DumbPredictor.predictRun (singleResult : Except PyError ℚ)
    (features : FeatureBatch) : Except PyError (List ℚ) :=
  match features.shape with
  | [] => .error .indexError
  | n :: _ =>
      match singleResult with
      | .error e => .error e
      | .ok v => .ok (List.replicate n v)

/-- `DumbRegressor`: its only field is the inherited `targets` attribute. -/
structure DumbRegressor where
  targets : List ℚ
deriving DecidableEq

/-- `DumbPredictor.__init__` as inherited by `DumbRegressor` (lines 16 to 21):
store `target_values` as `self.targets`; no validation, never raises. -/
def DumbRegressor.init (target_values : List ℚ) : Except PyError DumbRegressor :=
  .ok ⟨target_values⟩

/-- `DumbRegressor._single_predict` (line 51): the mean of the targets. -/
def DumbRegressor.singlePredict (self : DumbRegressor) : Except PyError ℚ :=
  .ok (npMean self.targets)

/-- `DumbRegressor.predict`: the inherited method dispatching to the mean. -/
def DumbRegressor.predict (self : DumbRegressor) (features : FeatureBatch) :
    Except PyError (List ℚ) :=
  DumbPredictor.predictRun self.singlePredict features

/-- `DumbOrdinalClassifier`: its only field is the inherited `targets`. -/
structure DumbOrdinalClassifier where
  targets : List ℚ
deriving DecidableEq

/-- `DumbPredictor.__init__` as inherited by `DumbOrdinalClassifier`:
store the sequence; no validation, never raises. -/
def DumbOrdinalClassifier.init (target_values : List ℚ) :
    Except PyError DumbOrdinalClassifier :=
  .ok ⟨target_values⟩

/-- `DumbOrdinalClassifier._single_predict` (line 63): the median. -/
def DumbOrdinalClassifier.singlePredict (self : DumbOrdinalClassifier) :
    Except PyError ℚ :=
  .ok (npMedian self.targets)

/-- `DumbOrdinalClassifier.predict`: the inherited method, median variant. -/
def DumbOrdinalClassifier.predict (self : DumbOrdinalClassifier)
    (features : FeatureBatch) : Except PyError (List ℚ) :=
  DumbPredictor.predictRun self.singlePredict features

/-- `DumbNominalClassifier`: its only field is the inherited `targets`. -/
structure DumbNominalClassifier where
  targets : List ℚ
deriving DecidableEq

/-- `DumbPredictor.__init__` as inherited by `DumbNominalClassifier`:
store the sequence; no validation, never raises. -/
def DumbNominalClassifier.init (target_values : List ℚ) :
    Except PyError DumbNominalClassifier :=
  .ok ⟨target_values⟩

/-- `DumbNominalClassifier._single_predict` (lines 76 and 77): the mode,
which raises `IndexError` on empty targets. -/
def DumbNominalClassifier.singlePredict (self : DumbNominalClassifier) :
    Except PyError ℚ :=
  modesAtZero self.targets

/-- `DumbNominalClassifier.predict`: the inherited method, mode variant. -/
def DumbNominalClassifier.predict (self : DumbNominalClassifier)
    (features : FeatureBatch) : Except PyError (List ℚ) :=
  DumbPredictor.predictRun self.singlePredict features

/-- A `predict` call viewed as a state transformer on the instance: the
method body (lines 37 and 38) assigns no attribute, so the instance handed
back is the one received. -/
def DumbRegressor.predictCall (self : DumbRegressor) (features : FeatureBatch) :
    DumbRegressor × Except PyError (List ℚ) :=
  (self, self.predict features)

/-- A `predict` call on the ordinal variant as a state transformer. -/
def DumbOrdinalClassifier.predictCall (self : DumbOrdinalClassifier)
    (features : FeatureBatch) :
    DumbOrdinalClassifier × Except PyError (List ℚ) :=
  (self, self.predict features)

/-- A `predict` call on the nominal variant as a state transformer. -/
def DumbNominalClassifier.predictCall (self : DumbNominalClassifier)
    (features : FeatureBatch) :
    DumbNominalClassifier × Except PyError (List ℚ) :=
  (self, self.predict features)

/-- The instance state after a whole series of `predict` calls. -/
def DumbRegressor.runCalls (self : DumbRegressor)
    (batches : List FeatureBatch) : DumbRegressor :=
  batches.foldl (fun s f => (s.predictCall f).1) self

/-- The ordinal instance state after a series of `predict` calls. -/
def DumbOrdinalClassifier.runCalls (self : DumbOrdinalClassifier)
    (batches : List FeatureBatch) : DumbOrdinalClassifier :=
  batches.foldl (fun s f => (s.predictCall f).1) self

/-- The nominal instance state after a series of `predict` calls. -/
def DumbNominalClassifier.runCalls (self : DumbNominalClassifier)
    (batches : List FeatureBatch) : DumbNominalClassifier :=
  batches.foldl (fun s f => (s.predictCall f).1) self

theorem isModeB_iff (a : List ℚ) (x : ℚ) :
    isModeB a x = true ↔ ∀ y ∈ a, a.count y ≤ a.count x := by
  simp [isModeB]

theorem mem_scipyModes (a : List ℚ) (x : ℚ) :
    x ∈ scipyModes a ↔ x ∈ a ∧ ∀ y ∈ a, a.count y ≤ a.count x := by
  simp [scipyModes, List.mem_filter, List.mem_dedup, List.mem_insertionSort,
    isModeB]

theorem scipyModes_sorted (a : List ℚ) : (scipyModes a).Pairwise (· ≤ ·) := by
  have hs : List.Sorted (· ≤ ·) (List.insertionSort (· ≤ ·) a) :=
    List.sorted_insertionSort _ a
  exact List.Pairwise.sublist
    ((List.filter_sublist _).trans (List.dedup_sublist _)) hs

theorem exists_max_count (a : List ℚ) (h : a ≠ []) :
    ∃ m ∈ a, ∀ y ∈ a, a.count y ≤ a.count m := by
  obtain ⟨x, hx⟩ := List.exists_mem_of_ne_nil a h
  obtain ⟨m, hm, hmax⟩ := a.toFinset.exists_max_image (fun y => a.count y)
    ⟨x, List.mem_toFinset.2 hx⟩
  exact ⟨m, List.mem_toFinset.1 hm, fun y hy => hmax y (List.mem_toFinset.2 hy)⟩

theorem modesAtZero_spec (a : List ℚ) (h : a ≠ []) :
    ∃ m, modesAtZero a = .ok m ∧ m ∈ a ∧ (∀ y ∈ a, a.count y ≤ a.count m) ∧
      ∀ y ∈ a, (∀ z ∈ a, a.count z ≤ a.count y) → m ≤ y := by
  obtain ⟨m₀, hm₀, hmax₀⟩ := exists_max_count a h
  have hmem : m₀ ∈ scipyModes a := (mem_scipyModes a m₀).2 ⟨hm₀, hmax₀⟩
  cases hsm : scipyModes a with
  | nil => rw [hsm] at hmem; exact absurd hmem (List.not_mem_nil m₀)
  | cons b t =>
    have hb : b ∈ scipyModes a := by rw [hsm]; exact List.mem_cons_self b t
    obtain ⟨hba, hbmax⟩ := (mem_scipyModes a b).1 hb
    refine ⟨b, by simp [modesAtZero, hsm], hba, hbmax, ?_⟩
    intro y hy hymax
    have hy' : y ∈ scipyModes a := (mem_scipyModes a y).2 ⟨hy, hymax⟩
    have hsorted := scipyModes_sorted a
    rw [hsm] at hsorted hy'
    rcases List.mem_cons.1 hy' with hyb | hyt
    · exact hyb ▸ le_refl b
    · exact List.rel_of_pairwise_cons hsorted hyt

theorem modesAtZero_unique (a : List ℚ) (m : ℚ) (hm : m ∈ a)
    (h : ∀ y ∈ a, y ≠ m → a.count y < a.count m) : modesAtZero a = .ok m := by
  have hmmax : ∀ y ∈ a, a.count y ≤ a.count m := by
    intro y hy
    by_cases hym : y = m
    · exact hym ▸ le_refl _
    · exact le_of_lt (h y hy hym)
  have hmem : m ∈ scipyModes a := (mem_scipyModes a m).2 ⟨hm, hmmax⟩
  cases hsm : scipyModes a with
  | nil => rw [hsm] at hmem; exact absurd hmem (List.not_mem_nil m)
  | cons b t =>
    have hb : b ∈ scipyModes a := by rw [hsm]; exact List.mem_cons_self b t
    obtain ⟨hba, hbmax⟩ := (mem_scipyModes a b).1 hb
    have hbm : b = m := by
      by_contra hne
      exact absurd (hbmax m hm) (not_le_of_lt (h b hba hne))
    simp [modesAtZero, hsm, hbm]

theorem predictRun_nilShape (s : Except PyError ℚ) (f : FeatureBatch)
    (h : f.shape = []) : DumbPredictor.predictRun s f = .error .indexError := by
  simp [DumbPredictor.predictRun, h]

theorem predictRun_ok (v : ℚ) (f : FeatureBatch) (n : Nat) (rest : List Nat)
    (h : f.shape = n :: rest) :
    DumbPredictor.predictRun (.ok v) f = .ok (List.replicate n v) := by
  simp [DumbPredictor.predictRun, h]

theorem predictRun_err (e : PyError) (f : FeatureBatch) (n : Nat)
    (rest : List Nat) (h : f.shape = n :: rest) :
    DumbPredictor.predictRun (.error e) f = .error e := by
  simp [DumbPredictor.predictRun, h]

theorem predictRun_congr (s : Except PyError ℚ) (f g : FeatureBatch)
    (h : f.shape.head? = g.shape.head?) :
    DumbPredictor.predictRun s f = DumbPredictor.predictRun s g := by
  cases hf : f.shape with
  | nil =>
    cases hg : g.shape with
    | nil => simp [DumbPredictor.predictRun, hf, hg]
    | cons m t => rw [hf, hg] at h; simp at h
  | cons n t =>
    cases hg : g.shape with
    | nil => rw [hf, hg] at h; simp at h
    | cons m t₂ =>
      rw [hf, hg] at h
      simp only [List.head?_cons, Option.some.injEq] at h
      simp [DumbPredictor.predictRun, hf, hg, h]

theorem runCalls_regressor (self : DumbRegressor)
    (batches : List FeatureBatch) : self.runCalls batches = self := by
  induction batches generalizing self with
  | nil => rfl
  | cons f t ih => exact ih self

theorem runCalls_ordinal (self : DumbOrdinalClassifier)
    (batches : List FeatureBatch) : self.runCalls batches = self := by
  induction batches generalizing self with
  | nil => rfl
  | cons f t ih => exact ih self

theorem runCalls_nominal (self : DumbNominalClassifier)
    (batches : List FeatureBatch) : self.runCalls batches = self := by
  induction batches generalizing self with
  | nil => rfl
  | cons f t ih => exact ih self

/-- Claim C1: for every non-empty target sequence T and every batch whose
leading dimension is n, constructing the regressor baseline with T succeeds
and predict returns a sequence of length n in which every element equals the
arithmetic mean of T (the sum of T divided by its length). -/
theorem regressor_predict_broadcasts_mean (T : List ℚ) (_hT : T ≠ [])
    (f : FeatureBatch) (n : Nat) (rest : List Nat) (hf : f.shape = n :: rest) :
    DumbRegressor.init T = .ok ⟨T⟩ ∧
    ∃ r, DumbRegressor.predict ⟨T⟩ f = .ok r ∧ r.length = n ∧
      ∀ x ∈ r, x = T.sum / (T.length : ℚ) := by
  refine ⟨rfl, List.replicate n (npMean T), ?_, List.length_replicate n _, ?_⟩
  · exact predictRun_ok (npMean T) f n rest hf
  · intro x hx
    exact List.eq_of_mem_replicate hx

/-- Claim C1 witness: T = [1, 2, 3, 4] and a batch of three records. -/
theorem regressor_predict_broadcasts_mean_witness :
    ([1, 2, 3, 4] : List ℚ) ≠ [] ∧
    (DumbRegressor.init [1, 2, 3, 4] = .ok ⟨[1, 2, 3, 4]⟩ ∧
      ∃ r, DumbRegressor.predict ⟨[1, 2, 3, 4]⟩ ⟨[3], [[0], [0], [0]]⟩ = .ok r ∧
        r.length = 3 ∧
        ∀ x ∈ r, x = ([1, 2, 3, 4] : List ℚ).sum /
          ((([1, 2, 3, 4] : List ℚ).length : ℚ))) :=
  ⟨by simp, regressor_predict_broadcasts_mean [1, 2, 3, 4] (by simp)
    ⟨[3], [[0], [0], [0]]⟩ 3 [] rfl⟩

/-- Claim C2: for every non-empty target sequence T and every batch whose
leading dimension is n, the ordinal baseline returns a sequence of length n
in which every element equals the median of T computed by the conventional
sort-and-midpoint rule (average of the two middle elements for even length);
in particular the median of [1, 2, 4, 4] is 3. -/
theorem ordinal_predict_broadcasts_median (T : List ℚ) (_hT : T ≠ [])
    (f : FeatureBatch) (n : Nat) (rest : List Nat) (hf : f.shape = n :: rest) :
    (∃ r, DumbOrdinalClassifier.predict ⟨T⟩ f = .ok r ∧ r.length = n ∧
      ∀ x ∈ r, x = npMedian T) ∧
    npMedian [1, 2, 4, 4] = 3 := by
  constructor
  · refine ⟨List.replicate n (npMedian T), ?_, List.length_replicate n _, ?_⟩
    · exact predictRun_ok (npMedian T) f n rest hf
    · intro x hx
      exact List.eq_of_mem_replicate hx
  · have hs : List.insertionSort (· ≤ ·) ([1, 2, 4, 4] : List ℚ) = [1, 2, 4, 4] := by
      decide
    rw [npMedian, hs]
    norm_num

/-- Claim C2 witness: T = [1, 2, 4, 4] and a batch of one record; the
predicted value is the median 3. -/
theorem ordinal_predict_broadcasts_median_witness :
    ([1, 2, 4, 4] : List ℚ) ≠ [] ∧
    ((∃ r, DumbOrdinalClassifier.predict ⟨[1, 2, 4, 4]⟩ ⟨[1], [[7]]⟩ = .ok r ∧
        r.length = 1 ∧ ∀ x ∈ r, x = npMedian [1, 2, 4, 4]) ∧
      npMedian [1, 2, 4, 4] = 3) :=
  ⟨by simp, ordinal_predict_broadcasts_median [1, 2, 4, 4] (by simp)
    ⟨[1], [[7]]⟩ 1 [] rfl⟩

/-- Claim C3: for every target sequence T with a unique mode m (m occurs and
every other value occurs strictly less often) and every batch whose leading
dimension is n, the nominal baseline returns a sequence of length n in which
every element equals m. -/
theorem nominal_predict_broadcasts_unique_mode (T : List ℚ) (m : ℚ)
    (hm : m ∈ T) (huniq : ∀ y ∈ T, y ≠ m → T.count y < T.count m)
    (f : FeatureBatch) (n : Nat) (rest : List Nat) (hf : f.shape = n :: rest) :
    ∃ r, DumbNominalClassifier.predict ⟨T⟩ f = .ok r ∧ r.length = n ∧
      ∀ x ∈ r, x = m := by
  refine ⟨List.replicate n m, ?_, List.length_replicate n m,
    fun x hx => List.eq_of_mem_replicate hx⟩
  show DumbPredictor.predictRun (modesAtZero T) f = _
  rw [modesAtZero_unique T m hm huniq]
  exact predictRun_ok m f n rest hf

/-- Claim C3 witness: T = [1, 2, 2] has the unique mode 2, and a batch of two
records yields two copies of 2. -/
theorem nominal_predict_broadcasts_unique_mode_witness :
    (2 : ℚ) ∈ ([1, 2, 2] : List ℚ) ∧
    (∀ y ∈ ([1, 2, 2] : List ℚ), y ≠ 2 →
      ([1, 2, 2] : List ℚ).count y < ([1, 2, 2] : List ℚ).count 2) ∧
    ∃ r, DumbNominalClassifier.predict ⟨[1, 2, 2]⟩ ⟨[2], [[0], [0]]⟩ = .ok r ∧
      r.length = 2 ∧ ∀ x ∈ r, x = 2 :=
  ⟨by decide, by decide, nominal_predict_broadcasts_unique_mode [1, 2, 2] 2
    (by decide) (by decide) ⟨[2], [[0], [0]]⟩ 2 [] rfl⟩

/-- Claim C4: for every non-empty target sequence and every batch whose
leading dimension is n, each of the three variants returns a result of
length exactly n. -/
theorem predict_length_eq_record_count (T : List ℚ) (hT : T ≠ [])
    (f : FeatureBatch) (n : Nat) (rest : List Nat) (hf : f.shape = n :: rest) :
    (∃ r, DumbRegressor.predict ⟨T⟩ f = .ok r ∧ r.length = n) ∧
    (∃ r, DumbOrdinalClassifier.predict ⟨T⟩ f = .ok r ∧ r.length = n) ∧
    (∃ r, DumbNominalClassifier.predict ⟨T⟩ f = .ok r ∧ r.length = n) := by
  obtain ⟨m, hmode, -, -, -⟩ := modesAtZero_spec T hT
  refine ⟨⟨_, predictRun_ok (npMean T) f n rest hf, List.length_replicate n _⟩,
    ⟨_, predictRun_ok (npMedian T) f n rest hf, List.length_replicate n _⟩,
    List.replicate n m, ?_, List.length_replicate n m⟩
  show DumbPredictor.predictRun (modesAtZero T) f = _
  rw [hmode]
  exact predictRun_ok m f n rest hf

/-- Claim C4 witness: the edge case of a batch of zero records, on which all
three variants return the empty result. -/
theorem predict_length_eq_record_count_witness :
    ([7] : List ℚ) ≠ [] ∧
    ((∃ r, DumbRegressor.predict ⟨[7]⟩ ⟨[0], []⟩ = .ok r ∧ r.length = 0) ∧
      (∃ r, DumbOrdinalClassifier.predict ⟨[7]⟩ ⟨[0], []⟩ = .ok r ∧ r.length = 0) ∧
      ∃ r, DumbNominalClassifier.predict ⟨[7]⟩ ⟨[0], []⟩ = .ok r ∧ r.length = 0) :=
  ⟨by simp, predict_length_eq_record_count [7] (by simp) ⟨[0], []⟩ 0 [] rfl⟩

/-- Claim C5: the prediction depends only on the stored targets and the
record count of the batch: two batches whose leading dimensions agree give
identical results for each of the three variants, whatever their element
values or trailing dimensions. -/
theorem predict_feature_value_independent (T : List ℚ) (f g : FeatureBatch)
    (h : f.shape.head? = g.shape.head?) :
    DumbRegressor.predict ⟨T⟩ f = DumbRegressor.predict ⟨T⟩ g ∧
    DumbOrdinalClassifier.predict ⟨T⟩ f = DumbOrdinalClassifier.predict ⟨T⟩ g ∧
    DumbNominalClassifier.predict ⟨T⟩ f = DumbNominalClassifier.predict ⟨T⟩ g :=
  ⟨predictRun_congr _ f g h, predictRun_congr _ f g h, predictRun_congr _ f g h⟩

/-- Claim C5 witness: two batches of two records with different element
values and different trailing dimensions give the same predictions. -/
theorem predict_feature_value_independent_witness :
    (FeatureBatch.mk [2, 9] [[1, 2], [3, 4]]).shape.head? =
      (FeatureBatch.mk [2] [[5], [6]]).shape.head? ∧
    (DumbRegressor.predict ⟨[1, 2]⟩ ⟨[2, 9], [[1, 2], [3, 4]]⟩ =
        DumbRegressor.predict ⟨[1, 2]⟩ ⟨[2], [[5], [6]]⟩ ∧
      DumbOrdinalClassifier.predict ⟨[1, 2]⟩ ⟨[2, 9], [[1, 2], [3, 4]]⟩ =
        DumbOrdinalClassifier.predict ⟨[1, 2]⟩ ⟨[2], [[5], [6]]⟩ ∧
      DumbNominalClassifier.predict ⟨[1, 2]⟩ ⟨[2, 9], [[1, 2], [3, 4]]⟩ =
        DumbNominalClassifier.predict ⟨[1, 2]⟩ ⟨[2], [[5], [6]]⟩) :=
  ⟨rfl, predict_feature_value_independent [1, 2]
    ⟨[2, 9], [[1, 2], [3, 4]]⟩ ⟨[2], [[5], [6]]⟩ rfl⟩

/-- Claim C6 counterexample: constructing each of the three variants with the
empty target sequence does not fail: each constructor returns a normal
instance storing the empty sequence, so no empty-target error is raised at
construction time. -/
theorem empty_target_construction_succeeds_cex :
    DumbRegressor.init [] = .ok ⟨[]⟩ ∧
    DumbOrdinalClassifier.init [] = .ok ⟨[]⟩ ∧
    DumbNominalClassifier.init [] = .ok ⟨[]⟩ :=
  ⟨rfl, rfl, rfl⟩

/-- Claim C6 amended: for the empty target sequence, construction succeeds
for all three variants and stores the empty sequence; nothing is raised at
construction time, the empty-target failure being deferred to prediction
time, where the nominal variant raises an IndexError. -/
theorem empty_target_construction_deferred :
    (DumbRegressor.init [] = .ok ⟨[]⟩ ∧
      DumbOrdinalClassifier.init [] = .ok ⟨[]⟩ ∧
      DumbNominalClassifier.init [] = .ok ⟨[]⟩) ∧
    DumbNominalClassifier.predict ⟨[]⟩ ⟨[2], [[0], [0]]⟩ = .error .indexError :=
  ⟨⟨rfl, rfl, rfl⟩, rfl⟩

/-- Claim C7 counterexample: on a batch with zero leading dimension every
variant returns the empty result instead of failing with an invalid-input
error. -/
theorem zero_leading_dim_predict_ok_cex :
    DumbRegressor.predict ⟨[1, 2]⟩ ⟨[0], []⟩ = .ok [] ∧
    DumbOrdinalClassifier.predict ⟨[1, 2]⟩ ⟨[0], []⟩ = .ok [] ∧
    DumbNominalClassifier.predict ⟨[1, 2]⟩ ⟨[0], []⟩ = .ok [] := by
  refine ⟨rfl, rfl, ?_⟩
  show DumbPredictor.predictRun (modesAtZero [1, 2]) _ = _
  have hs : scipyModes [1, 2] = [1, 2] := by decide
  have h : modesAtZero [1, 2] = .ok 1 := by rw [modesAtZero, hs]
  rw [h]
  rfl

/-- Claim C7 amended: predict fails only when the batch cannot report a
record count (empty shape tuple), and then with an IndexError rather than a
dedicated invalid-input error; a batch with zero leading dimension succeeds
and yields the empty result (for the nominal variant provided the stored
targets are non-empty, since its statistic is computed even when zero records
are requested). -/
theorem predict_error_conditions (T : List ℚ) (f : FeatureBatch) :
    (f.shape = [] →
      DumbRegressor.predict ⟨T⟩ f = .error .indexError ∧
      DumbOrdinalClassifier.predict ⟨T⟩ f = .error .indexError ∧
      DumbNominalClassifier.predict ⟨T⟩ f = .error .indexError) ∧
    ∀ rest, f.shape = 0 :: rest →
      DumbRegressor.predict ⟨T⟩ f = .ok [] ∧
      DumbOrdinalClassifier.predict ⟨T⟩ f = .ok [] ∧
      (T ≠ [] → DumbNominalClassifier.predict ⟨T⟩ f = .ok []) := by
  constructor
  · intro h
    exact ⟨predictRun_nilShape _ f h, predictRun_nilShape _ f h,
      predictRun_nilShape _ f h⟩
  · intro rest h
    refine ⟨predictRun_ok (npMean T) f 0 rest h,
      predictRun_ok (npMedian T) f 0 rest h, ?_⟩
    intro hT
    obtain ⟨m, hmode, -, -, -⟩ := modesAtZero_spec T hT
    show DumbPredictor.predictRun (modesAtZero T) f = _
    rw [hmode]
    exact predictRun_ok m f 0 rest h

/-- Claim C7 witness: a batch with an empty shape tuple makes predict raise
an IndexError, while a batch of zero records succeeds with an empty result. -/
theorem predict_error_conditions_witness :
    DumbRegressor.predict ⟨[1, 2]⟩ ⟨[], [[3]]⟩ = .error .indexError ∧
    DumbNominalClassifier.predict ⟨[1, 2]⟩ ⟨[0], []⟩ = .ok [] :=
  ⟨((predict_error_conditions [1, 2] ⟨[], [[3]]⟩).1 rfl).1,
   ((predict_error_conditions [1, 2] ⟨[0], []⟩).2 [] rfl).2.2 (by simp)⟩

/-- Claim C8 counterexample: for targets [2, 2, 1, 1] the first tied mode in
encounter order is 2, yet the nominal predictor returns 1 (the smallest tied
mode), so the returned value is not the first of the tied modes. -/
theorem tied_mode_not_first_cex :
    firstTiedMode [2, 2, 1, 1] = some 2 ∧
    DumbNominalClassifier.predict ⟨[2, 2, 1, 1]⟩ ⟨[1], [[0]]⟩ = .ok [1] ∧
    (1 : ℚ) ≠ 2 := by
  refine ⟨by decide, ?_, by decide⟩
  show DumbPredictor.predictRun (modesAtZero [2, 2, 1, 1]) _ = _
  have hs : scipyModes [2, 2, 1, 1] = [1, 2] := by decide
  have h : modesAtZero [2, 2, 1, 1] = .ok 1 := by rw [modesAtZero, hs]
  rw [h]
  rfl

/-- Claim C8 amended: for every non-empty target sequence T there is a single
value m such that every predict call on the same instance returns n copies of
m; m belongs to the tie set (it occurs at least as often as every value of T)
and m is the smallest member of the tie set. -/
theorem tied_mode_smallest_consistent (T : List ℚ) (hT : T ≠ []) :
    ∃ m, m ∈ T ∧ (∀ y ∈ T, T.count y ≤ T.count m) ∧
      (∀ y ∈ T, (∀ z ∈ T, T.count z ≤ T.count y) → m ≤ y) ∧
      ∀ f n rest, f.shape = n :: rest →
        DumbNominalClassifier.predict ⟨T⟩ f = .ok (List.replicate n m) := by
  obtain ⟨m, hmode, hmem, hmax, hmin⟩ := modesAtZero_spec T hT
  refine ⟨m, hmem, hmax, hmin, ?_⟩
  intro f n rest hf
  show DumbPredictor.predictRun (modesAtZero T) f = _
  rw [hmode]
  exact predictRun_ok m f n rest hf

/-- Claim C8 amended witness: the tied targets [1, 1, 2, 2]. -/
theorem tied_mode_smallest_consistent_witness :
    ([1, 1, 2, 2] : List ℚ) ≠ [] ∧
    ∃ m, m ∈ ([1, 1, 2, 2] : List ℚ) ∧
      (∀ y ∈ ([1, 1, 2, 2] : List ℚ),
        ([1, 1, 2, 2] : List ℚ).count y ≤ ([1, 1, 2, 2] : List ℚ).count m) ∧
      (∀ y ∈ ([1, 1, 2, 2] : List ℚ),
        (∀ z ∈ ([1, 1, 2, 2] : List ℚ),
          ([1, 1, 2, 2] : List ℚ).count z ≤ ([1, 1, 2, 2] : List ℚ).count y) →
        m ≤ y) ∧
      ∀ f n rest, f.shape = n :: rest →
        DumbNominalClassifier.predict ⟨[1, 1, 2, 2]⟩ f = .ok (List.replicate n m) :=
  ⟨by simp, tied_mode_smallest_consistent [1, 1, 2, 2] (by simp)⟩

/-- Claim C9: predict has no side effects: running any series of predict
calls leaves the instance unchanged (hence its stored targets and every
other field), so the statistic of the instance never changes, for all three
variants. -/
theorem predict_no_side_effects (p : DumbRegressor) (q : DumbOrdinalClassifier)
    (w : DumbNominalClassifier) (batches : List FeatureBatch) :
    p.runCalls batches = p ∧ q.runCalls batches = q ∧ w.runCalls batches = w ∧
    (p.runCalls batches).targets = p.targets ∧
    (p.runCalls batches).singlePredict = p.singlePredict ∧
    (q.runCalls batches).singlePredict = q.singlePredict ∧
    (w.runCalls batches).singlePredict = w.singlePredict := by
  have hp := runCalls_regressor p batches
  have hq := runCalls_ordinal q batches
  have hw := runCalls_nominal w batches
  exact ⟨hp, hq, hw, by rw [hp], by rw [hp], by rw [hq], by rw [hw]⟩

/-- Claim C10: construction performs no validation: for every input
sequence, including the empty one, each of the three constructors succeeds
without raising and stores the given sequence as-is as the targets of the
instance. -/
theorem construction_no_validation (t : List ℚ) :
    DumbRegressor.init t = .ok ⟨t⟩ ∧
    DumbOrdinalClassifier.init t = .ok ⟨t⟩ ∧
    DumbNominalClassifier.init t = .ok ⟨t⟩ :=
  ⟨rfl, rfl, rfl⟩

end Baselines
